import Mathlib

/-!
Shallow embedding of the Berghain-challenge admission controllers and their
local simulation harness.

Sources embedded here:
* `src/simulation_engine.py` — `PersonGenerator` (hard-coded joint probability
  tables, marginal frequencies, `generate_person`) and `SimulationEngine`
  (`start_game`, `decide_and_next`).
* `src/scenario_1/scenario_1.py` — `AdaptiveBouncer` (`_is_feasible`,
  `_are_constraints_met`, `_track_attribute_combinations`, `make_decision`,
  `_make_decision_logic`).
* `src/scenario_2/scenario_2.py` — `SimpleBouncer` (`_make_decision_logic`).
* `src/scenario_3/scenario_3.py` — `AdaptiveBouncer` (`_is_feasible`,
  `_are_constraints_met`, `_make_decision_logic`).
* `src/run_local_simulation.py` — the scenario configurations.

Modelling conventions: Python dicts keyed by attribute-name strings become
either association lists (`List (String × Nat)`, when the code iterates over
`.items()`) or total functions `String → Nat` / `String → Bool` (when the code
only uses `d[k]` / `d.get(k, default)`; absent keys are represented by the
default value).  Python ints are `Int` where the code can go negative
(feasibility arithmetic) and `Nat` for counters.  Python floats are embedded
as exact rationals with the value of the decimal literal in the source.
Randomness is made explicit: `generate_person` takes the uniform draw
`u ∈ [0,1)` as an argument, and the engine takes the arrival stream as a
function from the person index.
-/

namespace Berghain

/-! ## Simulation engine (`src/simulation_engine.py`) -/

/-- The `status` field of `SimulationEngine`. -/
inductive GStatus where
  | notStarted
  | running
  | completed
  | failed
  deriving DecidableEq, Repr

/-- A scenario configuration as in `run_local_simulation.py`:
the `constraints` dict (as an association list in insertion order)
and `venue_capacity`. -/
structure EngineConfig where
  constraints : List (String × Nat)
  capacity : Nat

/-- The mutable state of `SimulationEngine`.  `counts` embeds
`current_attribute_counts` (keys are the constraint attributes; all other
strings map to 0).  `lastPersonSent` stores the attribute dict of the last
person handed out, as in `self.last_person_sent`. -/
structure EngineState where
  personIndex : Nat
  admitted : Nat
  rejected : Nat
  counts : String → Nat
  status : GStatus
  lastPersonSent : Option (String → Bool)

/-- `self.max_rejections = 20000`. -/
def maxRejections : Nat := 20000

/-- `attr in self.current_attribute_counts`: the count dict's key set is the
set of constraint attributes. -/
def isConstraintAttr (cfg : EngineConfig) (a : String) : Bool :=
  cfg.constraints.any fun c => c.1 = a

/-- The decision-processing block of `SimulationEngine.decide_and_next`:
if a decision was supplied and a person is pending, on accept bump
`admitted_count` and the count of every attribute the person carries that is
tracked; on reject bump `rejected_count`. -/
def applyDecision (cfg : EngineConfig) (s : EngineState) (decision : Option Bool) :
    EngineState :=
  match decision, s.lastPersonSent with
  | some d, some p =>
    if d then
      { s with
        admitted := s.admitted + 1,
        counts := fun a => if p a && isConstraintAttr cfg a then s.counts a + 1 else s.counts a }
    else
      { s with rejected := s.rejected + 1 }
  | _, _ => s

/-- The "check for game over conditions" block of `decide_and_next` followed
by the generation of the next person: capacity reached means `completed`,
then an exhausted rejection budget means `failed`, otherwise the next person
is generated, stored in `last_person_sent`, and `person_index` advances. -/
def checkGameOver (gen : Nat → String → Bool) (cfg : EngineConfig)
    (s1 : EngineState) : EngineState :=
  if cfg.capacity ≤ s1.admitted then { s1 with status := GStatus.completed }
  else if maxRejections ≤ s1.rejected then { s1 with status := GStatus.failed }
  else
    { s1 with
      lastPersonSent := some (gen s1.personIndex),
      personIndex := s1.personIndex + 1 }

/-- `SimulationEngine.decide_and_next`, as a state transformer.  `gen` is the
arrival stream (`PersonGenerator.generate_person` indexed by how many people
have been generated, which equals `person_index`).  A non-running game is
returned unchanged; otherwise the pending decision is applied, then the
terminal conditions are checked (capacity first, then the rejection budget),
and if none holds the next person is generated and stored. -/
def decideAndNext (gen : Nat → String → Bool) (cfg : EngineConfig)
    (s : EngineState) (decision : Option Bool) : EngineState :=
  if s.status ≠ GStatus.running then s
  else checkGameOver gen cfg (applyDecision cfg s decision)

/-- `SimulationEngine.start_game`: all counters reset, status `running`,
no person pending. -/
def startGame (_cfg : EngineConfig) : EngineState :=
  { personIndex := 0
    admitted := 0
    rejected := 0
    counts := fun _ => 0
    status := GStatus.running
    lastPersonSent := none }

/-- A freshly started engine driven by an arbitrary sequence of
caller-supplied decisions. -/
def engineRun (gen : Nat → String → Bool) (cfg : EngineConfig)
    (ds : List (Option Bool)) : EngineState :=
  ds.foldl (decideAndNext gen cfg) (startGame cfg)

/-! ## PersonGenerator (`src/simulation_engine.py`) -/

/-- Scenario 1 `joint_probabilities`, key order `(young, well_dressed)`,
in dict insertion order. -/
def jointTable1 : List ((Bool × Bool) × ℚ) := [
  ((false, false), 0.5024),
  ((false, true), 0.1827),
  ((true, false), 0.1753),
  ((true, true), 0.1396)]

/-- Scenario 2 `joint_probabilities`, key order
`(berlin_local, creative, techno_lover, well_connected)`, in dict insertion
order. -/
def jointTable2 : List ((Bool × Bool × Bool × Bool) × ℚ) := [
  ((false, false, true, true), 0.09824164878945756),
  ((false, false, true, false), 0.4177329144958627),
  ((true, false, false, true), 0.24651394422310757),
  ((true, false, true, false), 0.013790989886607416),
  ((true, true, true, true), 0.025896414342629483),
  ((true, false, false, false), 0.04863239350291143),
  ((true, false, true, true), 0.04752145265093472),
  ((false, false, false, true), 0.03162350597609562),
  ((false, false, false, false), 0.03505209929512718),
  ((true, true, true, false), 0.007738277658596384),
  ((true, true, false, true), 0.006838032485442844),
  ((false, true, true, true), 0.010247471651854122),
  ((false, true, false, true), 0.0028539687404229236),
  ((false, true, true, false), 0.0049800796812749),
  ((true, true, false, false), 0.0015897946674839104),
  ((false, true, false, false), 0.000747011952191235)]

/-- Scenario 3 `joint_probabilities`, key order `(fashion_forward,
german_speaker, international, queer_friendly, underground_veteran,
vinyl_collector)`, in dict insertion order. -/
def jointTable3 : List ((Bool × Bool × Bool × Bool × Bool × Bool) × ℚ) := [
  ((true, false, true, false, true, false), 0.2606859024844276),
  ((false, true, false, false, true, false), 0.1567981671081836),
  ((true, false, true, false, false, false), 0.15173265554521373),
  ((true, true, false, false, true, false), 0.10150712393498962),
  ((true, true, false, false, false, false), 0.06502828094794874),
  ((false, false, true, false, true, false), 0.0439428653254099),
  ((true, true, true, false, true, false), 0.02534545714899406),
  ((false, true, false, false, false, false), 0.021998281663922103),
  ((true, true, true, false, false, false), 0.019886160234839263),
  ((false, false, true, false, false, false), 0.016252595403450993),
  ((false, true, true, false, true, false), 0.013800386625617528),
  ((true, false, false, false, true, false), 0.013191809264695353),
  ((false, false, false, false, false, false), 0.013156010596405813),
  ((true, false, false, false, false, false), 0.01267272857449703),
  ((false, true, false, false, true, true), 0.007213431660342235),
  ((false, false, false, false, true, false), 0.006873344311591608),
  ((false, true, true, false, false, false), 0.00678384764086776),
  ((true, false, true, true, true, false), 0.004958115558101239),
  ((true, true, true, true, true, true), 0.004206343524020906),
  ((false, true, true, false, true, true), 0.0039199541777045896),
  ((true, true, true, true, true, false), 0.0033650748192167253),
  ((false, true, false, true, true, true), 0.0029712894680317893),
  ((true, true, false, true, true, false), 0.00289969213145271),
  ((true, false, true, true, true, true), 0.0028638934631631703),
  ((true, true, false, true, true, true), 0.0025596047827020833),
  ((false, true, true, true, true, true), 0.002398510775399155),
  ((true, false, true, true, false, false), 0.0020763227607932984),
  ((true, true, false, false, true, true), 0.002022624758358989),
  ((true, false, false, true, true, false), 0.00191522875349037),
  ((false, true, false, true, true, false), 0.0018615307510560608),
  ((false, false, false, false, true, true), 0.0015930407388845135),
  ((true, false, false, true, true, true), 0.0015751414047397436),
  ((true, true, true, false, true, true), 0.0014856447340158947),
  ((true, true, true, true, false, false), 0.0015214434023054343),
  ((false, false, true, false, true, true), 0.0013424500608577362),
  ((true, true, false, true, false, false), 0.0012350540559891172),
  ((true, false, true, false, true, true), 0.001252953390133887),
  ((false, true, true, true, true, false), 0.0011276580511204984),
  ((false, false, true, true, true, false), 0.0010739600486861889),
  ((true, true, true, true, false, true), 0.0010202620462518794),
  ((false, false, false, true, true, true), 0.0009486647096728001),
  ((false, false, true, true, true, true), 0.0009307653755280304),
  ((true, false, false, true, false, false), 0.000859168038948951),
  ((true, false, true, true, false, true), 0.0008233693706594115),
  ((false, true, false, false, false, true), 0.0008054700365146416),
  ((false, true, true, false, false, true), 0.0007159733657907926),
  ((true, false, false, true, false, true), 0.0006980740316460227),
  ((true, true, false, true, false, true), 0.0006801746975012529),
  ((false, false, false, true, true, false), 0.0006622753633564832),
  ((true, false, true, false, false, true), 0.0006443760292117133),
  ((true, false, false, false, true, true), 0.0005190806901983246),
  ((false, false, true, true, false, true), 0.00041168468532970574),
  ((false, true, false, true, false, true), 0.0003758860170401661),
  ((false, true, true, true, false, false), 0.0003579866828953963),
  ((false, false, true, true, false, false), 0.0003579866828953963),
  ((false, true, false, true, false, false), 0.0003579866828953963),
  ((false, true, true, true, false, true), 0.0003579866828953963),
  ((false, false, false, true, false, true), 0.00032218801460585667),
  ((false, false, false, true, false, false), 0.0002684900121715472),
  ((true, true, false, false, false, true), 0.0002684900121715472),
  ((true, true, true, false, false, true), 0.00017899334144769814),
  ((false, false, true, false, false, true), 0.00016109400730292834),
  ((false, false, false, false, false, true), 0.0001252953390133887),
  ((true, false, false, false, false, true), 5.369800243430944e-5)]

/-- Scenario 1 `attribute_frequencies`. -/
def attributeFrequencies1 : List (String × ℚ) := [
  ("young", 0.3149),
  ("well_dressed", 0.3223)]

/-- Scenario 2 `attribute_frequencies`. -/
def attributeFrequencies2 : List (String × ℚ) := [
  ("techno_lover", 0.6265000000000001),
  ("well_connected", 0.4700000000000001),
  ("creative", 0.06227),
  ("berlin_local", 0.398)]

/-- Scenario 3 `attribute_frequencies`. -/
def attributeFrequencies3 : List (String × ℚ) := [
  ("underground_veteran", 0.6794999999999999),
  ("international", 0.5735),
  ("fashion_forward", 0.6910000000000002),
  ("queer_friendly", 0.04614),
  ("vinyl_collector", 0.044539999999999996),
  ("german_speaker", 0.4565000000000001)]

/-- The sampling loop inside `generate_person`: walk the table accumulating
`cumulative`; as soon as `rand_val <= cumulative`, stop with that entry's
attribute combination (the `break`); if the loop finishes without the bound
ever being reached, no combination is selected (the `attributes` dict keeps
its initialization). -/
def genJointLoop {α : Type} (table : List (α × ℚ)) (u : ℚ) (cum : ℚ) : Option α :=
  match table with
  | [] => none
  | e :: rest =>
    let cum' := cum + e.2
    if u ≤ cum' then some e.1 else genJointLoop rest u cum'

/-- Writing a selected scenario-2 combination
`(berlin_local, creative, techno_lover, well_connected)` into the attributes
dict; attributes outside the dict read back as `False` via `.get`. -/
def comboAttrs2 (c : Bool × Bool × Bool × Bool) : String → Bool := fun a =>
  if a = "berlin_local" then c.1
  else if a = "creative" then c.2.1
  else if a = "techno_lover" then c.2.2.1
  else if a = "well_connected" then c.2.2.2
  else false

/-- `PersonGenerator.generate_person` for scenario 2, with the uniform draw
`u` (`rand_val = random.random()`) made explicit.  The attributes dict starts
as `{attr: False for attr in self.constraints}`; the joint-probability loop
overwrites the four attributes only when some cumulative prefix mass reaches
`u`. -/
def generatePerson2 (u : ℚ) : String → Bool :=
  match genJointLoop jointTable2 u 0 with
  | some c => comboAttrs2 c
  | none => fun _ => false

/-- Total probability mass of a joint table. -/
def tableSum {α : Type} (table : List (α × ℚ)) : ℚ :=
  (table.map Prod.snd).sum

/-- Mass the table assigns to combinations selected by `sel`
(marginalization). -/
def marginal {α : Type} (table : List (α × ℚ)) (sel : α → Bool) : ℚ :=
  ((table.filter fun e => sel e.1).map Prod.snd).sum

/-- Projection of a scenario-1 combination `(young, well_dressed)` onto one
attribute. -/
def proj1 (a : String) : Bool × Bool → Bool := fun c =>
  if a = "young" then c.1
  else if a = "well_dressed" then c.2
  else false

/-- Projection of a scenario-2 combination
`(berlin_local, creative, techno_lover, well_connected)` onto one
attribute. -/
def proj2 (a : String) : Bool × Bool × Bool × Bool → Bool := fun c =>
  comboAttrs2 c a

/-- Projection of a scenario-3 combination `(fashion_forward, german_speaker,
international, queer_friendly, underground_veteran, vinyl_collector)` onto
one attribute. -/
def proj3 (a : String) : Bool × Bool × Bool × Bool × Bool × Bool → Bool := fun c =>
  if a = "fashion_forward" then c.1
  else if a = "german_speaker" then c.2.1
  else if a = "international" then c.2.2.1
  else if a = "queer_friendly" then c.2.2.2.1
  else if a = "underground_veteran" then c.2.2.2.2.1
  else if a = "vinyl_collector" then c.2.2.2.2.2
  else false

/-- Cumulative probability mass of the first `i + 1` table entries.  Written
from the spec's description of the sampling contract (the cumulative mass at
position `i` of the fixed iteration order). -/
def cumulativeMass {α : Type} (table : List (α × ℚ)) (i : Nat) : ℚ :=
  ((table.take (i + 1)).map Prod.snd).sum

/-- The first position of the table whose cumulative probability mass meets
or exceeds `u`.  Written from the spec's words for `sample`, to be compared
with the source-translated loop `genJointLoop`. -/
def firstHitPos {α : Type} (table : List (α × ℚ)) (u : ℚ) : Option Nat :=
  (List.range table.length).find? fun i => decide (u ≤ cumulativeMass table i)

/-! ## Shared bouncer pieces (scenario 1 and scenario 3 files) -/

/-- `_is_feasible` of `scenario_1.py` and `scenario_3.py` (textually the same
function in both files), with the module constant `VENUE_CAPACITY` as a
parameter: after hypothetically admitting the candidate, every constraint
must still be satisfiable within the remaining slots. -/
def feasibleAfterAccept (capacity : Nat) (constraints : List (String × Nat))
    (counts : String → Nat) (admitted : Nat) (p : String → Bool) : Bool :=
  let remainingSlots : Int := (capacity : Int) - (admitted : Int) - 1
  constraints.all fun c =>
    let needed : Int := (c.2 : Int) - (counts c.1 : Int)
    let needed' : Int := if p c.1 then max 0 (needed - 1) else needed
    decide (needed' ≤ remainingSlots)

/-- `_are_constraints_met` (same in all three bouncer files): every
constrained attribute has reached its minimum count. -/
def areConstraintsMet (constraints : List (String × Nat))
    (counts : String → Nat) : Bool :=
  constraints.all fun c => decide (c.2 ≤ counts c.1)

/-- `any(person_attributes.get(attr, False) for attr in self.constraints.keys())`. -/
def hasAnyAttribute (constraints : List (String × Nat)) (p : String → Bool) : Bool :=
  constraints.any fun c => p c.1

/-! ## Scenario 1 bouncer (`src/scenario_1/scenario_1.py`) -/

/-- The fields of scenario 1's `AdaptiveBouncer` read or written by
`make_decision`: the admission-tracking fields plus the correlation-tracking
fields (`people_seen` and the four buckets of `combination_counts`). -/
structure Bouncer1State where
  constraints : List (String × Nat)
  counts : String → Nat
  admitted : Nat
  rejected : Nat
  peopleSeen : Nat
  youngOnly : Nat
  wellDressedOnly : Nat
  bothYoungWellDressed : Nat
  neither : Nat

/-- `VENUE_CAPACITY = 1000` in `scenario_1.py`. -/
def scen1VenueCapacity : Nat := 1000

/-- `self.phase1_threshold = 1200` in scenario 1's `__init__`. -/
def scen1Phase1Threshold : Nat := 1200

/-- Scenario 1 `_is_feasible` (capacity fixed at the module constant). -/
def isFeasible1 (s : Bouncer1State) (p : String → Bool) : Bool :=
  feasibleAfterAccept scen1VenueCapacity s.constraints s.counts s.admitted p

/-- `sum(max(0, self.constraints[attr] - self.current_attribute_counts.get(attr, 0)) ...)`:
total number of attribute slots still needed (truncated subtraction is the
`max 0`). -/
def totalNeeded (constraints : List (String × Nat)) (counts : String → Nat) : Nat :=
  (constraints.map fun c => c.2 - counts c.1).sum

/-- Scenario 1 `_make_decision_logic`: the 600/600 shortcut, then phase 1
(first 1200 admitted: accept iff any constrained attribute), then the
constraints-met shortcut, then phase 2 (feasibility-gated, with the
zero-attribute slack rule). -/
def makeDecisionLogic1 (s : Bouncer1State) (p : String → Bool) : Bool :=
  let hasAny := hasAnyAttribute s.constraints p
  if 600 ≤ s.counts "young" ∧ 600 ≤ s.counts "well_dressed" then true
  else if s.admitted < scen1Phase1Threshold then hasAny
  else if areConstraintsMet s.constraints s.counts then true
  else if !hasAny then
    if !isFeasible1 s p then false
    else
      let remainingSlots : Int := (scen1VenueCapacity : Int) - (s.admitted : Int) - 1
      decide ((totalNeeded s.constraints s.counts : Int) ≤ remainingSlots)
  else isFeasible1 s p

/-- `_track_attribute_combinations`: bump `people_seen` and the bucket of the
candidate's `(young, well_dressed)` combination. -/
def trackAttributeCombinations (s : Bouncer1State) (p : String → Bool) : Bouncer1State :=
  let young := p "young"
  let wellDressed := p "well_dressed"
  { s with
    peopleSeen := s.peopleSeen + 1,
    bothYoungWellDressed :=
      if young && wellDressed then s.bothYoungWellDressed + 1 else s.bothYoungWellDressed,
    youngOnly := if young && !wellDressed then s.youngOnly + 1 else s.youngOnly,
    wellDressedOnly :=
      if !young && wellDressed then s.wellDressedOnly + 1 else s.wellDressedOnly,
    neither := if !young && !wellDressed then s.neither + 1 else s.neither }

/-- Scenario 1 `make_decision`: first `_track_attribute_combinations` mutates
the tracking fields, then `_make_decision_logic` computes the decision.
Returned as (decision, state after the call). -/
def makeDecision1 (s : Bouncer1State) (p : String → Bool) : Bool × Bouncer1State :=
  let s' := trackAttributeCombinations s p
  (makeDecisionLogic1 s' p, s')

/-! ## Scenario 2 bouncer (`src/scenario_2/scenario_2.py`) -/

/-- The fields of `SimpleBouncer` (scenario 2) and of scenario 3's
`AdaptiveBouncer` read by their decision logic. -/
structure BouncerState where
  constraints : List (String × Nat)
  counts : String → Nat
  admitted : Nat
  rejected : Nat

/-- `VENUE_CAPACITY = 1000` in `scenario_2.py`. -/
def scen2VenueCapacity : Nat := 1000

/-- Scenario 2 `_make_decision_logic`: capacity guard; always accept
creatives; non-creatives with all of techno_lover, well_connected and
berlin_local go through the 450/650 phase thresholds; otherwise in phase 3
accept berlin_local holders; everyone else is rejected.  The
`_are_constraints_met` acceptance at the end of the source function sits
after an if/else in which every branch returns, so it is unreachable and has
no counterpart here. -/
def makeDecisionLogic2 (s : BouncerState) (p : String → Bool) : Bool :=
  if scen2VenueCapacity ≤ s.admitted then false
  else if p "creative" then true
  else if p "techno_lover" && p "well_connected" && p "berlin_local" then
    if s.counts "well_connected" < 450 then true
    else if s.counts "techno_lover" < 650 then true
    else false
  else if 450 ≤ s.counts "well_connected" ∧ 650 ≤ s.counts "techno_lover" then
    p "berlin_local"
  else false

/-! ## Scenario 3 bouncer (`src/scenario_3/scenario_3.py`) -/

/-- `VENUE_CAPACITY = 1000` in `scenario_3.py`. -/
def scen3VenueCapacity : Nat := 1000

/-- Scenario 3 `_is_feasible` (capacity fixed at the module constant). -/
def isFeasible3 (s : BouncerState) (p : String → Bool) : Bool :=
  feasibleAfterAccept scen3VenueCapacity s.constraints s.counts s.admitted p

/-- `self.constraints.get('german_speaker', 0)`. -/
def lookupConstraint (constraints : List (String × Nat)) (a : String) : Nat :=
  match constraints.find? (fun c => c.1 = a) with
  | some c => c.2
  | none => 0

/-- Scenario 3 `_make_decision_logic`, parameterized by the phase-5 scoring
function `_should_accept_advanced` (`adv`).  The phase-5 score compares
floating-point quantities and is never relied upon by the claims below, all
of which are proved for every possible `adv`, so the actual scoring function
is one instance.  Phases 1-4 are translated from the source: the feasibility
gate, the constraints-met shortcut, the always-accept branch for
queer_friendly / vinyl_collector, and the 200-non-german-speaker cap. -/
def makeDecisionLogic3 (adv : BouncerState → (String → Bool) → Bool)
    (s : BouncerState) (p : String → Bool) : Bool :=
  if !isFeasible3 s p then false
  else if areConstraintsMet s.constraints s.counts then true
  else if p "queer_friendly" || p "vinyl_collector" then true
  else
    let maxNonGerman : Int :=
      (scen3VenueCapacity : Int) - (lookupConstraint s.constraints "german_speaker" : Int)
    let currentNonGerman : Int := (s.admitted : Int) - (s.counts "german_speaker" : Int)
    let remainingNonGermanSlots : Int := maxNonGerman - currentNonGerman
    if !p "german_speaker" && decide (remainingNonGermanSlots ≤ 0) then false
    else adv s p

/-! ## The local harness driving a bouncer (`run_local_simulation.py`) -/

/-- `SCENARIO_1_CONFIG` of `run_local_simulation.py`. -/
def scen1Config : EngineConfig :=
  { constraints := [("young", 600), ("well_dressed", 600)], capacity := 1000 }

/-- `SCENARIO_2_CONFIG` of `run_local_simulation.py`. -/
def scen2Config : EngineConfig :=
  { constraints :=
      [("techno_lover", 650), ("well_connected", 450), ("creative", 300),
       ("berlin_local", 750)],
    capacity := 1000 }

/-- `SCENARIO_3_CONFIG` of `run_local_simulation.py`. -/
def scen3Config : EngineConfig :=
  { constraints :=
      [("underground_veteran", 500), ("international", 650),
       ("fashion_forward", 550), ("queer_friendly", 250),
       ("vinyl_collector", 200), ("german_speaker", 800)],
    capacity := 1000 }

/-- The bouncer's view of the shared game state while it is driven against
the local engine: its `constraints` come from the start-game response (the
engine config), and its `admitted_count` / `current_attribute_counts` /
`rejected_count` copies stay equal to the engine's, because `run_game`
applies exactly the updates the engine applies. -/
def bouncerView (cfg : EngineConfig) (s : EngineState) : BouncerState :=
  { constraints := cfg.constraints
    counts := s.counts
    admitted := s.admitted
    rejected := s.rejected }

/-- One turn of a bouncer's `run_game` loop against the local engine: decide
on the pending person (if any) and submit the decision via
`decide_and_next`. -/
def bouncerStep (decide : EngineState → (String → Bool) → Bool)
    (gen : Nat → String → Bool) (cfg : EngineConfig) (s : EngineState) : EngineState :=
  decideAndNext gen cfg s (s.lastPersonSent.map (decide s))

/-- A bouncer run against the local engine: `start_game`, the initial fetch
of person 0 (a `decide_and_next` with no decision), then `n` decision
turns. -/
def bouncerRun (decide : EngineState → (String → Bool) → Bool)
    (gen : Nat → String → Bool) (cfg : EngineConfig) : Nat → EngineState
  | 0 => decideAndNext gen cfg (startGame cfg) none
  | n + 1 => bouncerStep decide gen cfg (bouncerRun decide gen cfg n)

/-- The scenario-3 bouncer's decision as a function of the shared game
state. -/
def scen3Decide (adv : BouncerState → (String → Bool) → Bool)
    (s : EngineState) (p : String → Bool) : Bool :=
  makeDecisionLogic3 adv (bouncerView scen3Config s) p

/-! ## Auxiliary concrete data for the claim-specific runs -/

/-- Modelled from the spec: the capacity-10 test scenario of §8 with the
single constraint `{A: 10}`.  This configuration is not in `src`
(`run_local_simulation.py` only ships the three 1000-capacity scenarios). -/
def c8Config : EngineConfig := { constraints := [("A", 10)], capacity := 10 }

/-- Modelled from the spec: the arrival stream strictly alternating
`A=True, A=False` starting with `A=True`. -/
def c8Gen : Nat → String → Bool := fun n a => decide (a = "A") && decide (n % 2 = 0)

/-- Modelled from the spec: the stage-1-gated accept-any-attribute controller
of §4.1 stages 1-2 / §8 (scenario-1 style): reject when the feasibility gate
fails, otherwise accept exactly the candidates carrying some constrained
attribute.  This exact capacity-parameterized controller is not in `src`
(scenario 1 hard-codes capacity 1000 and applies the gate only in its
phase 2); its gate is the source-translated `feasibleAfterAccept`. -/
def gatedAnyDecide (capacity : Nat) (constraints : List (String × Nat))
    (s : EngineState) (p : String → Bool) : Bool :=
  if feasibleAfterAccept capacity constraints s.counts s.admitted p then
    hasAnyAttribute constraints p
  else false

/-- The §8 capacity-10 run: gated accept-any controller against the
alternating stream. -/
def c8Run (n : Nat) : EngineState :=
  bouncerRun (gatedAnyDecide 10 c8Config.constraints) c8Gen c8Config n

/-- The decision submitted for person `k` of the capacity-10 run (the person
delivered by turn `k` and decided in turn `k + 1`). -/
def c8DecisionAt (k : Nat) : Option Bool :=
  (c8Run k).lastPersonSent.map (gatedAnyDecide 10 c8Config.constraints (c8Run k))

/-- Invariant maintained by `decide_and_next` from a freshly started engine:
the counters stay within their bounds, every attribute count is dominated by
the admission count, and whenever a person is pending in a running game both
budgets still have room (the continue branch only runs after both terminal
checks failed). -/
abbrev EngineInv (cfg : EngineConfig) (s : EngineState) : Prop :=
  s.admitted ≤ cfg.capacity ∧ s.rejected ≤ maxRejections ∧
  (∀ a : String, s.counts a ≤ s.admitted) ∧
  (s.status = GStatus.running → s.lastPersonSent.isSome = true →
    s.admitted < cfg.capacity ∧ s.rejected < maxRejections)

/-- A scenario-1 admission state deep in phase 1: 1000 candidates seen, the
500 well_dressed-only ones admitted, the 500 with neither attribute
rejected. -/
def cex1State : Bouncer1State :=
  { constraints := scen1Config.constraints
    counts := fun a => if a = "well_dressed" then 500 else 0
    admitted := 500
    rejected := 500
    peopleSeen := 1000
    youngOnly := 0
    wellDressedOnly := 500
    bothYoungWellDressed := 0
    neither := 500 }

/-- A candidate carrying only `well_dressed`. -/
def cex1Person : String → Bool := fun a => decide (a = "well_dressed")

/-- A scenario-2 admission state with every constraint exactly met and one
slot still open. -/
def cex2State : BouncerState :=
  { constraints := scen2Config.constraints
    counts := fun a =>
      if a = "techno_lover" then 650
      else if a = "well_connected" then 450
      else if a = "creative" then 300
      else if a = "berlin_local" then 750
      else 0
    admitted := 999
    rejected := 0 }

/-- A non-creative candidate carrying techno_lover, well_connected and
berlin_local. -/
def cex2Person : String → Bool := fun a =>
  decide (a = "techno_lover") || decide (a = "well_connected") || decide (a = "berlin_local")

/-- A fresh scenario-1 bouncer state (all counters zero). -/
def cex7State : Bouncer1State :=
  { constraints := scen1Config.constraints
    counts := fun _ => 0
    admitted := 0
    rejected := 0
    peopleSeen := 0
    youngOnly := 0
    wellDressedOnly := 0
    bothYoungWellDressed := 0
    neither := 0 }

/-- A candidate carrying only `young`. -/
def cex7Person : String → Bool := fun a => decide (a = "young")

/-- A scenario-3 state with one open slot and no german_speaker admitted:
accepting anyone without german_speaker is infeasible. -/
def wit1State : BouncerState :=
  { constraints := scen3Config.constraints
    counts := fun _ => 0
    admitted := 999
    rejected := 0 }

/-- A candidate with no attributes at all. -/
def wit1Person : String → Bool := fun _ => false

/-- A fresh scenario-1 bouncer state used to instantiate the phase-1
simplification. -/
def wit9State : Bouncer1State :=
  { constraints := scen1Config.constraints
    counts := fun _ => 0
    admitted := 0
    rejected := 0
    peopleSeen := 0
    youngOnly := 0
    wellDressedOnly := 0
    bothYoungWellDressed := 0
    neither := 0 }

/-- A candidate carrying only `young`. -/
def wit9Person : String → Bool := fun a => decide (a = "young")

/-- A uniform draw just below 1, strictly above the total mass of scenario
2's joint table (which sums to `1 - 2 / 10 ^ 18`). -/
def fallbackDraw : ℚ := 999999999999999999 / 1000000000000000000

/-! ## Engine lemmas -/

/-- A non-running game is returned unchanged by `decide_and_next`. -/
theorem decideAndNext_not_running (gen : Nat → String → Bool) (cfg : EngineConfig)
    (d : Option Bool) {s : EngineState} (h : s.status ≠ GStatus.running) :
    decideAndNext gen cfg s d = s := by
  simp [decideAndNext, h]

/-- `applyDecision` on a pending accept: the admission counter and the
carried tracked attributes are bumped. -/
theorem applyDecision_accept {cfg : EngineConfig} {s : EngineState}
    {p : String → Bool} (hp : s.lastPersonSent = some p) :
    applyDecision cfg s (some true) =
      { s with
        admitted := s.admitted + 1,
        counts := fun a =>
          if p a && isConstraintAttr cfg a then s.counts a + 1 else s.counts a } := by
  unfold applyDecision
  rw [hp]
  rfl

/-- `applyDecision` on a pending reject: only the rejection counter is
bumped. -/
theorem applyDecision_reject {cfg : EngineConfig} {s : EngineState}
    {p : String → Bool} (hp : s.lastPersonSent = some p) :
    applyDecision cfg s (some false) = { s with rejected := s.rejected + 1 } := by
  unfold applyDecision
  rw [hp]
  rfl

/-- `applyDecision` with no pending person leaves the state unchanged. -/
theorem applyDecision_noPending {cfg : EngineConfig} {s : EngineState}
    (hp : s.lastPersonSent = none) (d : Option Bool) :
    applyDecision cfg s d = s := by
  rcases d with _ | b
  · rfl
  · unfold applyDecision
    rw [hp]

/-- Applying a pending decision in a running game keeps the counters within
their bounds. -/
theorem applyDecision_bounds {cfg : EngineConfig} {s : EngineState}
    (h : EngineInv cfg s) (hs : s.status = GStatus.running) (d : Option Bool) :
    (applyDecision cfg s d).admitted ≤ cfg.capacity ∧
    (applyDecision cfg s d).rejected ≤ maxRejections ∧
    ∀ a : String, (applyDecision cfg s d).counts a ≤ (applyDecision cfg s d).admitted := by
  obtain ⟨h1, h2, h3, h4⟩ := h
  rcases d with _ | b
  · exact ⟨h1, h2, h3⟩
  · rcases hp : s.lastPersonSent with _ | p
    · rw [applyDecision_noPending hp]
      exact ⟨h1, h2, h3⟩
    · have hlt := h4 hs (by rw [hp]; rfl)
      rcases b
      · rw [applyDecision_reject hp]
        exact ⟨h1, Nat.succ_le_of_lt hlt.2, h3⟩
      · rw [applyDecision_accept hp]
        refine ⟨Nat.succ_le_of_lt hlt.1, h2, fun a => ?_⟩
        show (if p a && isConstraintAttr cfg a then s.counts a + 1 else s.counts a) ≤
          s.admitted + 1
        by_cases hc : (p a && isConstraintAttr cfg a) = true
        · rw [if_pos hc]
          exact Nat.succ_le_succ (h3 a)
        · rw [if_neg hc]
          exact Nat.le_succ_of_le (h3 a)

/-- One `decide_and_next` step preserves the engine invariant. -/
theorem decideAndNext_inv (gen : Nat → String → Bool) {cfg : EngineConfig}
    {s : EngineState} (d : Option Bool) (h : EngineInv cfg s) :
    EngineInv cfg (decideAndNext gen cfg s d) := by
  by_cases hs : s.status = GStatus.running
  · obtain ⟨g1, g2, g3⟩ := applyDecision_bounds h hs d
    have hrw : decideAndNext gen cfg s d = checkGameOver gen cfg (applyDecision cfg s d) := by
      simp [decideAndNext, hs]
    rw [hrw]
    set s1 := applyDecision cfg s d with hs1
    unfold checkGameOver
    by_cases hc : cfg.capacity ≤ s1.admitted
    · rw [if_pos hc]
      exact ⟨g1, g2, g3, fun hst => GStatus.noConfusion hst⟩
    · rw [if_neg hc]
      by_cases hr : maxRejections ≤ s1.rejected
      · rw [if_pos hr]
        exact ⟨g1, g2, g3, fun hst => GStatus.noConfusion hst⟩
      · rw [if_neg hr]
        exact ⟨g1, g2, g3, fun _ _ => ⟨Nat.lt_of_not_le hc, Nat.lt_of_not_le hr⟩⟩
  · rw [decideAndNext_not_running gen cfg d hs]
    exact h

/-- A freshly started game satisfies the engine invariant. -/
theorem startGame_inv (cfg : EngineConfig) : EngineInv cfg (startGame cfg) :=
  ⟨Nat.zero_le _, Nat.zero_le _, fun _ => Nat.le_refl 0,
    fun _ hsome => Bool.noConfusion hsome⟩

/-- `applyDecision` never changes the game status. -/
theorem applyDecision_status (cfg : EngineConfig) (s : EngineState) (d : Option Bool) :
    (applyDecision cfg s d).status = s.status := by
  rcases d with _ | b
  · rfl
  · rcases hp : s.lastPersonSent with _ | p
    · rw [applyDecision_noPending hp]
    · rcases b
      · rw [applyDecision_reject hp]
      · rw [applyDecision_accept hp]

/-- What the game-over check does to a running post-decision state: the
counters are untouched and the status becomes `completed` exactly when
capacity is reached, `failed` exactly when capacity is not reached and the
rejection budget is exhausted. -/
theorem checkGameOver_spec (gen : Nat → String → Bool) (cfg : EngineConfig)
    {s1 : EngineState} (hs1 : s1.status = GStatus.running) :
    (checkGameOver gen cfg s1).admitted = s1.admitted ∧
    (checkGameOver gen cfg s1).rejected = s1.rejected ∧
    ((checkGameOver gen cfg s1).status = GStatus.completed ↔
      cfg.capacity ≤ s1.admitted) ∧
    ((checkGameOver gen cfg s1).status = GStatus.failed ↔
      s1.admitted < cfg.capacity ∧ maxRejections ≤ s1.rejected) := by
  unfold checkGameOver
  by_cases hc : cfg.capacity ≤ s1.admitted
  · rw [if_pos hc]
    refine ⟨rfl, rfl, ⟨fun _ => hc, fun _ => rfl⟩, ?_, ?_⟩
    · intro hst
      exact GStatus.noConfusion hst
    · rintro ⟨hlt, -⟩
      exact absurd hc (Nat.not_le.mpr hlt)
  · rw [if_neg hc]
    by_cases hr : maxRejections ≤ s1.rejected
    · rw [if_pos hr]
      refine ⟨rfl, rfl, ⟨?_, fun heq => absurd heq hc⟩,
        fun _ => ⟨Nat.lt_of_not_le hc, hr⟩, fun _ => rfl⟩
      intro hst
      exact GStatus.noConfusion hst
    · rw [if_neg hr]
      refine ⟨rfl, rfl, ⟨?_, fun heq => absurd heq hc⟩, ?_, ?_⟩
      · intro hst
        have h2 : s1.status = GStatus.completed := hst
        rw [hs1] at h2
        exact GStatus.noConfusion h2
      · intro hst
        have h2 : s1.status = GStatus.failed := hst
        rw [hs1] at h2
        exact GStatus.noConfusion h2
      · rintro ⟨-, hr2⟩
        exact absurd hr2 hr

/-- The engine invariant holds after any decision sequence. -/
theorem engineRun_inv (gen : Nat → String → Bool) (cfg : EngineConfig)
    (ds : List (Option Bool)) : EngineInv cfg (engineRun gen cfg ds) := by
  suffices h : ∀ s : EngineState, EngineInv cfg s →
      EngineInv cfg (ds.foldl (decideAndNext gen cfg) s) from
    h _ (startGame_inv cfg)
  induction ds with
  | nil => exact fun s h => h
  | cons d ds ih => exact fun s h => ih _ (decideAndNext_inv gen d h)

/-- C3: across every sequence of `decide_and_next` steps of a freshly
started `SimulationEngine`, with any caller-supplied decisions and any
arrival stream, `admitted_count` never exceeds `venue_capacity`,
`rejected_count` never exceeds `max_rejections`, and every tracked attribute
count is at most `admitted_count`. -/
theorem engineRun_counter_bounds (gen : Nat → String → Bool) (cfg : EngineConfig)
    (ds : List (Option Bool)) :
    (engineRun gen cfg ds).admitted ≤ cfg.capacity ∧
    (engineRun gen cfg ds).rejected ≤ maxRejections ∧
    ∀ a : String, (engineRun gen cfg ds).counts a ≤ (engineRun gen cfg ds).admitted := by
  obtain ⟨h1, h2, h3, _⟩ := engineRun_inv gen cfg ds
  exact ⟨h1, h2, h3⟩

/-- C4: from any reachable running state, `decide_and_next` moves to
`completed` exactly when `admitted_count` reaches `venue_capacity`, and to
`failed` exactly when `rejected_count` reaches `max_rejections` (20000)
while `admitted_count` is still below capacity; a `completed` or `failed`
state is returned unchanged (including its terminal status) by every further
call. -/
theorem decideAndNext_status_transitions (gen : Nat → String → Bool)
    (cfg : EngineConfig) (ds : List (Option Bool)) (d : Option Bool)
    (h : (engineRun gen cfg ds).status = GStatus.running) :
    ((decideAndNext gen cfg (engineRun gen cfg ds) d).status = GStatus.completed ↔
      (decideAndNext gen cfg (engineRun gen cfg ds) d).admitted = cfg.capacity) ∧
    ((decideAndNext gen cfg (engineRun gen cfg ds) d).status = GStatus.failed ↔
      (decideAndNext gen cfg (engineRun gen cfg ds) d).admitted < cfg.capacity ∧
        (decideAndNext gen cfg (engineRun gen cfg ds) d).rejected = maxRejections) ∧
    ∀ t : EngineState, t.status = GStatus.completed ∨ t.status = GStatus.failed →
      decideAndNext gen cfg t d = t := by
  have hinv := engineRun_inv gen cfg ds
  obtain ⟨g1, g2, g3⟩ := applyDecision_bounds hinv h d
  have hterm : ∀ t : EngineState, t.status = GStatus.completed ∨ t.status = GStatus.failed →
      decideAndNext gen cfg t d = t := by
    intro t ht
    apply decideAndNext_not_running
    rcases ht with ht | ht <;> simp [ht]
  have hrw : decideAndNext gen cfg (engineRun gen cfg ds) d =
      checkGameOver gen cfg (applyDecision cfg (engineRun gen cfg ds) d) := by
    simp [decideAndNext, h]
  have hst1 : (applyDecision cfg (engineRun gen cfg ds) d).status = GStatus.running := by
    rw [applyDecision_status]
    exact h
  obtain ⟨ha, hr, hciff, hfiff⟩ := checkGameOver_spec gen cfg hst1
  rw [hrw]
  refine ⟨?_, ?_, hterm⟩
  · rw [hciff, ha]
    omega
  · rw [hfiff, ha, hr]
    omega

/-- Witness for C4 at a concrete running state. -/
theorem decideAndNext_status_transitions_witness :
    (engineRun (fun _ _ => false) scen1Config []).status = GStatus.running ∧
    (((decideAndNext (fun _ _ => false) scen1Config
            (engineRun (fun _ _ => false) scen1Config []) none).status = GStatus.completed ↔
        (decideAndNext (fun _ _ => false) scen1Config
            (engineRun (fun _ _ => false) scen1Config []) none).admitted =
          scen1Config.capacity) ∧
      (((decideAndNext (fun _ _ => false) scen1Config
            (engineRun (fun _ _ => false) scen1Config []) none).status = GStatus.failed ↔
        (decideAndNext (fun _ _ => false) scen1Config
            (engineRun (fun _ _ => false) scen1Config []) none).admitted <
            scen1Config.capacity ∧
          (decideAndNext (fun _ _ => false) scen1Config
              (engineRun (fun _ _ => false) scen1Config []) none).rejected =
            maxRejections)) ∧
      ∀ t : EngineState, t.status = GStatus.completed ∨ t.status = GStatus.failed →
        decideAndNext (fun _ _ => false) scen1Config t none = t) :=
  ⟨rfl, decideAndNext_status_transitions (fun _ _ => false) scen1Config [] none rfl⟩

/-! ## The feasibility gate across the three bouncers (C1) -/

/-- C1 (counterexample): in scenario 1's actual configuration, a phase-1
state in which stage-1 feasibility fails for `young` (600 more `young`
needed, 499 slots left) still gets a well_dressed-only candidate accepted,
because `_make_decision_logic` consults `_is_feasible` only in phase 2. -/
theorem scen1_accepts_infeasible_candidate :
    isFeasible1 cex1State cex1Person = false ∧
    makeDecisionLogic1 cex1State cex1Person = true := by
  decide

/-- C1 (amended): the scenario-3 bouncer does reject unconditionally
whenever the stage-1 feasibility check fails, whatever its phase-5 scoring
function does. -/
theorem scen3_rejects_when_infeasible (adv : BouncerState → (String → Bool) → Bool)
    (s : BouncerState) (p : String → Bool) (h : isFeasible3 s p = false) :
    makeDecisionLogic3 adv s p = false := by
  unfold makeDecisionLogic3
  rw [h]
  rfl

/-- Witness for the amended C1 at a concrete infeasible state. -/
theorem scen3_rejects_when_infeasible_witness :
    isFeasible3 wit1State wit1Person = false ∧
    makeDecisionLogic3 (fun _ _ => true) wit1State wit1Person = false :=
  ⟨by decide,
    scen3_rejects_when_infeasible (fun _ _ => true) wit1State wit1Person (by decide)⟩

/-! ## Acceptance once all constraints are met (C2) -/

/-- C2: the scenario-2 bouncer contradicts its own documented strategy
("once all constraints satisfied, accept everyone"): with every scenario-2
constraint exactly met and a slot still open, a non-creative candidate
carrying techno_lover, well_connected and berlin_local is rejected, because
the `_are_constraints_met` acceptance in `_make_decision_logic` sits after
an if/else in which every branch returns. -/
theorem scen2_rejects_with_all_constraints_met :
    areConstraintsMet cex2State.constraints cex2State.counts = true ∧
    cex2State.admitted < scen2VenueCapacity ∧
    makeDecisionLogic2 cex2State cex2Person = false := by
  decide

/-! ## Purity of `make_decision` (C7) -/

/-- C7 (counterexample): scenario 1's `make_decision` does mutate the
bouncer: `_track_attribute_combinations` bumps `people_seen` on every
call. -/
theorem makeDecision1_mutates_people_seen :
    (makeDecision1 cex7State cex7Person).2.peopleSeen ≠ cex7State.peopleSeen := by
  decide

/-- C7 (amended): scenario 1's `make_decision` leaves the admission state —
`constraints`, `current_attribute_counts`, `admitted_count`,
`rejected_count` — unchanged, and mutates only the correlation-tracking
fields (`people_seen` is incremented); the decision itself is computed by
the side-effect-free `_make_decision_logic`. -/
theorem makeDecision1_admission_state_frame (s : Bouncer1State) (p : String → Bool) :
    (makeDecision1 s p).2.admitted = s.admitted ∧
    (makeDecision1 s p).2.rejected = s.rejected ∧
    (makeDecision1 s p).2.counts = s.counts ∧
    (makeDecision1 s p).2.constraints = s.constraints ∧
    (makeDecision1 s p).2.peopleSeen = s.peopleSeen + 1 ∧
    (makeDecision1 s p).1 = makeDecisionLogic1 (trackAttributeCombinations s p) p :=
  ⟨rfl, rfl, rfl, rfl, rfl, rfl⟩

/-! ## Scenario 1 phase-1 extensional simplification (C9) -/

/-- C9: while `admitted_count` is below `phase1_threshold = 1200` — in
particular in every state the capacity-1000 game loop can reach — scenario
1's `_make_decision_logic` is extensionally the rule "accept iff (young
count ≥ 600 and well_dressed count ≥ 600) or the candidate carries some
constrained attribute"; the phase-2 feasibility and zero-attribute branches
never fire. -/
theorem makeDecisionLogic1_phase1_simplification (s : Bouncer1State)
    (p : String → Bool) (h : s.admitted < scen1Phase1Threshold) :
    makeDecisionLogic1 s p =
      (decide (600 ≤ s.counts "young" ∧ 600 ≤ s.counts "well_dressed") ||
        hasAnyAttribute s.constraints p) := by
  unfold makeDecisionLogic1
  by_cases hy : 600 ≤ s.counts "young" ∧ 600 ≤ s.counts "well_dressed"
  · rw [if_pos hy, decide_eq_true hy, Bool.true_or]
  · rw [if_neg hy, if_pos h, decide_eq_false hy, Bool.false_or]

/-- Witness for C9 at a concrete phase-1 state. -/
theorem makeDecisionLogic1_phase1_simplification_witness :
    wit9State.admitted < scen1Phase1Threshold ∧
    makeDecisionLogic1 wit9State wit9Person =
      (decide (600 ≤ wit9State.counts "young" ∧ 600 ≤ wit9State.counts "well_dressed") ||
        hasAnyAttribute wit9State.constraints wit9Person) :=
  ⟨by decide, makeDecisionLogic1_phase1_simplification wit9State wit9Person (by decide)⟩

/-! ## The non-german-speaker cap in scenario 3 (C10) -/

/-- An accept by scenario 3's decision logic can only happen after the
stage-1 feasibility gate has passed. -/
theorem makeDecisionLogic3_true_feasible
    {adv : BouncerState → (String → Bool) → Bool} {s : BouncerState}
    {p : String → Bool} (h : makeDecisionLogic3 adv s p = true) :
    isFeasible3 s p = true := by
  cases hf : isFeasible3 s p
  · unfold makeDecisionLogic3 at h
    rw [hf] at h
    simp at h
  · rfl

/-- With scenario 3's constraints, passing the feasibility gate with a
candidate who lacks german_speaker forces at most 199 already-admitted
non-german-speakers: 800 − counts(german_speaker) ≤ 1000 − admitted − 1. -/
theorem feasible_german_bound {s : BouncerState} {p : String → Bool}
    (hcon : s.constraints = scen3Config.constraints)
    (hf : isFeasible3 s p = true) (hg : p "german_speaker" = false) :
    s.admitted + 1 ≤ s.counts "german_speaker" + 200 := by
  unfold isFeasible3 feasibleAfterAccept scen3VenueCapacity at hf
  rw [hcon] at hf
  have hgs := List.all_eq_true.mp hf ("german_speaker", 800) (by simp [scen3Config])
  simp only [hg, Bool.false_eq_true, if_false, decide_eq_true_eq] at hgs
  omega

/-- One run-loop turn of the scenario-3 bouncer against the harness keeps
the number of admitted people without german_speaker at or below 200. -/
theorem scen3_step_non_german {adv : BouncerState → (String → Bool) → Bool}
    {gen : Nat → String → Bool} {s : EngineState}
    (h : s.admitted ≤ s.counts "german_speaker" + 200) :
    (bouncerStep (scen3Decide adv) gen scen3Config s).admitted ≤
      (bouncerStep (scen3Decide adv) gen scen3Config s).counts "german_speaker" + 200 := by
  unfold bouncerStep
  by_cases hs : s.status = GStatus.running
  · have hrw : decideAndNext gen scen3Config s (s.lastPersonSent.map (scen3Decide adv s)) =
        checkGameOver gen scen3Config
          (applyDecision scen3Config s (s.lastPersonSent.map (scen3Decide adv s))) := by
      simp [decideAndNext, hs]
    rw [hrw]
    suffices h1 :
        (applyDecision scen3Config s (s.lastPersonSent.map (scen3Decide adv s))).admitted ≤
          (applyDecision scen3Config s
            (s.lastPersonSent.map (scen3Decide adv s))).counts "german_speaker" + 200 by
      set s1 := applyDecision scen3Config s (s.lastPersonSent.map (scen3Decide adv s))
      unfold checkGameOver
      by_cases hc : scen3Config.capacity ≤ s1.admitted
      · rw [if_pos hc]
        exact h1
      · rw [if_neg hc]
        by_cases hr : maxRejections ≤ s1.rejected
        · rw [if_pos hr]
          exact h1
        · rw [if_neg hr]
          exact h1
    rcases hp : s.lastPersonSent with _ | p
    · rw [applyDecision_noPending hp]
      exact h
    · rw [show Option.map (scen3Decide adv s) (some p) = some (scen3Decide adv s p) from rfl]
      cases hd : scen3Decide adv s p
      · rw [applyDecision_reject hp]
        exact h
      · rw [applyDecision_accept hp]
        have hfeas : isFeasible3 (bouncerView scen3Config s) p = true :=
          makeDecisionLogic3_true_feasible hd
        show s.admitted + 1 ≤
          (if p "german_speaker" && isConstraintAttr scen3Config "german_speaker" then
            s.counts "german_speaker" + 1 else s.counts "german_speaker") + 200
        cases hpg : p "german_speaker"
        · rw [if_neg (by decide)]
          exact feasible_german_bound rfl hfeas hpg
        · rw [if_pos (by decide)]
          omega
  · rw [decideAndNext_not_running _ _ _ hs]
    exact h

/-- C10: in every run of the scenario-3 bouncer against the local harness
(capacity 1000, german_speaker minimum 800), and for every choice of the
phase-5 scoring function and arrival stream, the number of admitted people
lacking german_speaker never exceeds 200: once 200 are in, the stage-1 gate
rejects every further candidate without german_speaker, including along the
always-accept queer_friendly / vinyl_collector branch. -/
theorem scen3_run_non_german_cap (adv : BouncerState → (String → Bool) → Bool)
    (gen : Nat → String → Bool) (n : Nat) :
    (bouncerRun (scen3Decide adv) gen scen3Config n).admitted ≤
      (bouncerRun (scen3Decide adv) gen scen3Config n).counts "german_speaker" + 200 := by
  induction n with
  | zero =>
    show (decideAndNext gen scen3Config (startGame scen3Config) none).admitted ≤ _
    rw [decideAndNext]
    norm_num [startGame, checkGameOver, applyDecision, maxRejections, scen3Config]
  | succ n ih => exact scen3_step_non_german ih

/-! ## The joint-table sampler (C5) -/

/-- The cumulative mass of one entry is that entry's probability. -/
theorem cumulativeMass_cons_zero {α : Type} (e : α × ℚ) (rest : List (α × ℚ)) :
    cumulativeMass (e :: rest) 0 = e.2 := by
  simp [cumulativeMass]

/-- Peeling the head entry off a cumulative mass. -/
theorem cumulativeMass_cons_succ {α : Type} (e : α × ℚ) (rest : List (α × ℚ))
    (i : Nat) : cumulativeMass (e :: rest) (i + 1) = e.2 + cumulativeMass rest i := by
  simp [cumulativeMass]

/-- The sampling loop agrees with the declarative description: starting from
accumulated mass `c`, it selects exactly the entry at the first position
whose cumulative mass reaches `u`, and selects nothing when no position
does. -/
theorem genJointLoop_eq {α : Type} (d0 : α × ℚ) (table : List (α × ℚ)) :
    ∀ u c : ℚ, genJointLoop table u c =
      (firstHitPos table (u - c)).map fun i => (table.getD i d0).1 := by
  induction table with
  | nil => intro u c; rfl
  | cons e rest ih =>
    intro u c
    rw [genJointLoop]
    by_cases hle : u ≤ c + e.2
    · rw [if_pos hle]
      have hp0 : decide (u - c ≤ cumulativeMass (e :: rest) 0) = true := by
        rw [cumulativeMass_cons_zero]
        exact decide_eq_true (by linarith)
      have hfind : List.find? (fun i => decide (u - c ≤ cumulativeMass (e :: rest) i))
          (0 :: List.map Nat.succ (List.range rest.length)) = some 0 :=
        List.find?_cons_of_pos _ hp0
      have h0 : firstHitPos (e :: rest) (u - c) = some 0 := by
        unfold firstHitPos
        rw [List.length_cons, List.range_succ_eq_map, hfind]
      rw [h0]
      rfl
    · rw [if_neg hle]
      rw [ih u (c + e.2)]
      have hp0 : ¬ decide (u - c ≤ cumulativeMass (e :: rest) 0) = true := by
        rw [cumulativeMass_cons_zero]
        simp only [decide_eq_true_eq]
        intro hcontra
        exact hle (by linarith)
      have hfind : List.find? (fun i => decide (u - c ≤ cumulativeMass (e :: rest) i))
          (0 :: List.map Nat.succ (List.range rest.length)) =
          List.find? (fun i => decide (u - c ≤ cumulativeMass (e :: rest) i))
            (List.map Nat.succ (List.range rest.length)) :=
        List.find?_cons_of_neg _ hp0
      have hpred : ((fun i => decide (u - c ≤ cumulativeMass (e :: rest) i)) ∘ Nat.succ) =
          fun i => decide (u - (c + e.2) ≤ cumulativeMass rest i) := by
        funext i
        show decide (u - c ≤ cumulativeMass (e :: rest) (i + 1)) = _
        rw [cumulativeMass_cons_succ]
        exact decide_eq_decide.mpr ⟨fun hh => by linarith, fun hh => by linarith⟩
      have hfh : firstHitPos (e :: rest) (u - c) =
          (firstHitPos rest (u - (c + e.2))).map Nat.succ := by
        unfold firstHitPos
        rw [List.length_cons, List.range_succ_eq_map, hfind, List.find?_map, hpred]
      rw [hfh, Option.map_map]
      congr 1

/-- C5 (amended): for every uniform draw `u`, scenario 2's `generate_person`
returns the attribute combination at the first position of the joint table,
in its fixed iteration order, whose cumulative probability mass meets or
exceeds `u`; and when the accumulated mass never reaches `u`, it returns the
all-False attribute assignment that the attributes dict was initialized
with — not the last table entry. -/
theorem generatePerson2_first_hit_or_default (u : ℚ) :
    generatePerson2 u =
      match firstHitPos jointTable2 u with
      | some i => comboAttrs2 (jointTable2.getD i ((false, false, false, false), 0)).1
      | none => fun _ => false := by
  unfold generatePerson2
  rw [genJointLoop_eq ((false, false, false, false), 0) jointTable2 u 0, sub_zero]
  rcases hfh : firstHitPos jointTable2 u with _ | i <;> rfl

/-- C5 (counterexample): scenario 2's joint table sums to `1 - 2 / 10 ^ 18`,
so the uniform draw `1 - 1 / 10 ^ 18 ∈ [0, 1)` is never reached by the
accumulated mass; `generate_person` then keeps the initialization (in
particular `creative = False`), while the claim's fallback — the last table
entry — carries `creative = True`. -/
theorem generatePerson2_fallback_not_last_entry :
    (0 ≤ fallbackDraw ∧ fallbackDraw < 1) ∧
    tableSum jointTable2 < fallbackDraw ∧
    generatePerson2 fallbackDraw "creative" = false ∧
    (jointTable2.map Prod.fst).getLast? = some (false, true, false, false) ∧
    comboAttrs2 (false, true, false, false) "creative" = true := by
  refine ⟨⟨by norm_num [fallbackDraw], by norm_num [fallbackDraw]⟩, ?_, ?_, rfl, rfl⟩
  · norm_num [tableSum, jointTable2, fallbackDraw]
  · norm_num [generatePerson2, genJointLoop, jointTable2, fallbackDraw, comboAttrs2]

/-! ## Joint tables versus marginal frequencies (C6) -/

/-- C6 (counterexample): marginalizing scenario 2's joint table over
`creative` misses the hard-coded `attribute_frequencies` value 0.06227 by
more than `1 / 1000` — far beyond any floating-point tolerance. -/
theorem scen2_creative_marginal_mismatch :
    (("creative", (0.06227 : ℚ)) ∈ attributeFrequencies2) ∧
    (0.06227 : ℚ) - marginal jointTable2 (proj2 "creative") > 1 / 1000 := by
  constructor
  · simp [attributeFrequencies2]
  · simp [marginal, jointTable2, proj2, comboAttrs2] <;> norm_num

/-- C6 (amended): in all three hard-coded scenarios the joint probabilities
sum to 1 within `10 ^ (-9)` (scenario 1 exactly); marginalizing the joint
table reproduces `attribute_frequencies` exactly in scenario 1, but in
scenarios 2 and 3 only within `3 / 1000`, with some attribute off by more
than `1 / 1000` (see the counterexample), so the round-trip does not hold
within floating tolerance there. -/
theorem jointTable_sums_and_marginals :
    tableSum jointTable1 = 1 ∧
    |tableSum jointTable2 - 1| ≤ 1 / 1000000000 ∧
    |tableSum jointTable3 - 1| ≤ 1 / 1000000000 ∧
    (∀ e ∈ attributeFrequencies1, marginal jointTable1 (proj1 e.1) = e.2) ∧
    (∀ e ∈ attributeFrequencies2, |marginal jointTable2 (proj2 e.1) - e.2| ≤ 3 / 1000) ∧
    (∀ e ∈ attributeFrequencies3, |marginal jointTable3 (proj3 e.1) - e.2| ≤ 3 / 1000) := by
  refine ⟨by norm_num [tableSum, jointTable1], ?_, ?_, ?_, ?_, ?_⟩
  · rw [abs_le]
    constructor <;> norm_num [tableSum, jointTable2]
  · rw [abs_le]
    constructor <;> norm_num [tableSum, jointTable3]
  · intro e he
    simp only [attributeFrequencies1, List.mem_cons, List.not_mem_nil, or_false] at he
    rcases he with he | he <;> subst he <;>
      (simp [marginal, jointTable1, proj1] <;> norm_num)
  · intro e he
    simp only [attributeFrequencies2, List.mem_cons, List.not_mem_nil, or_false] at he
    rcases he with he | he | he | he <;> subst he <;> rw [abs_le] <;> constructor <;>
      (simp [marginal, jointTable2, proj2, comboAttrs2] <;> norm_num)
  · intro e he
    simp only [attributeFrequencies3, List.mem_cons, List.not_mem_nil, or_false] at he
    rcases he with he | he | he | he | he | he <;> subst he <;> rw [abs_le] <;> constructor <;>
      (simp [marginal, jointTable3, proj3] <;> norm_num)

/-! ## The capacity-10 alternating-stream scenario (C8) -/

set_option maxRecDepth 100000 in
/-- C8 (counterexample): driving the harness with capacity 10, constraint
`{A: 10}` and the alternating stream starting `A=True`, the gated
accept-any-attribute controller finishes `completed` with 10 admitted but
only 9 rejected — the 10th `A=False` candidate never arrives, because the
10th `A=True` candidate fills the venue first. -/
theorem c8_run_rejects_nine_not_ten :
    (c8Run 25).status = GStatus.completed ∧
    (c8Run 25).admitted = 10 ∧
    (c8Run 25).rejected = 9 ∧
    (c8Run 25).rejected ≠ 10 := by
  decide

set_option maxRecDepth 100000 in
/-- C8 (amended): in that run every `A=True` candidate (even person index)
is accepted and every `A=False` candidate (odd person index) is rejected;
after the 19 decisions the run is `completed` with exactly 10 admitted
(all carrying A) and exactly 9 rejected, and stays there forever. -/
theorem c8_run_outcome :
    ((List.range 19).all fun k => decide (c8DecisionAt k = some (decide (k % 2 = 0)))) = true ∧
    (c8Run 19).status = GStatus.completed ∧
    (c8Run 19).admitted = 10 ∧
    (c8Run 19).rejected = 9 ∧
    (c8Run 19).counts "A" = 10 ∧
    ∀ m : Nat, c8Run (19 + m) = c8Run 19 := by
  refine ⟨by decide, by decide, by decide, by decide, by decide, ?_⟩
  intro m
  induction m with
  | zero => rfl
  | succ m ih =>
    show bouncerStep (gatedAnyDecide 10 c8Config.constraints) c8Gen c8Config
      (c8Run (19 + m)) = c8Run 19
    rw [ih]
    unfold bouncerStep
    exact decideAndNext_not_running _ _ _ (by decide)

end Berghain
